import Mathlib

/-!
Verification of the `pollination-ladybug-comfort` task-descriptor layer.

The repository declares nine task descriptors (`map.py`), each with typed
input bindings, one command template with `{{self.<name>}}` placeholders,
and declared output paths.  The descriptors are embedded below directly
from the source.  The command renderer and the output collector belong to
the surrounding framework and are modelled from the specification
(sections 4.2 and 4.3).
-/

set_option autoImplicit false
set_option maxRecDepth 100000

namespace LadybugComfort

/-- The kind of an input or output binding: a file path, a folder path, or
a plain string value. -/
inductive IOKind where
  | file
  | folder
  | str
deriving DecidableEq, Repr

/-- An input binding of a task descriptor, carrying the fields used by the
declarations in `map.py` (name, kind, bound path, file extensions, default
literal, enum of allowed values, optional switch). -/
structure InputSpec where
  name : String
  kind : IOKind
  path : Option String
  extensions : List String
  default : Option String
  enum : Option (List String)
  optional : Bool
deriving DecidableEq, Repr

/-- `Inputs.file` from the source: a file input at a fixed local path. -/
def Inputs.file (n p : String) (exts : List String) (opt : Bool) : InputSpec :=
  ⟨n, IOKind.file, some p, exts, none, none, opt⟩

/-- `Inputs.folder` from the source: a folder input at a fixed local path. -/
def Inputs.folder (n p : String) (opt : Bool) : InputSpec :=
  ⟨n, IOKind.folder, some p, [], none, none, opt⟩

/-- `Inputs.str` from the source: a string input with an optional default
literal and an optional enum of allowed values. -/
def Inputs.str (n : String) (d : Option String) (e : Option (List String)) : InputSpec :=
  ⟨n, IOKind.str, none, [], d, e, false⟩

/-- An output binding of a task descriptor: name, kind and the local path
the external command is expected to produce. -/
structure OutputSpec where
  name : String
  kind : IOKind
  path : String
deriving DecidableEq, Repr

/-- `Outputs.file` from the source. -/
def Outputs.file (n p : String) : OutputSpec := ⟨n, IOKind.file, p⟩

/-- `Outputs.folder` from the source. -/
def Outputs.folder (n p : String) : OutputSpec := ⟨n, IOKind.folder, p⟩

/-- One piece of a command template: either literal text or a
`\x7b\x7bself.<name>\x7d\x7d` placeholder referring to the input called `name`. -/
inductive Chunk where
  | lit (s : String)
  | ph (n : String)
deriving DecidableEq, Repr

/-- A task descriptor: a named operation with its input bindings, its
command template and its output bindings. -/
structure Function where
  name : String
  inputs : List InputSpec
  template : List Chunk
  outputs : List OutputSpec
deriving DecidableEq, Repr

/-- A concrete binding of input names to values, supplied by the
orchestration framework at run time. -/
abbrev Binding := List (String × String)

/-- First value bound to a name, if any. -/
def lookupBinding (b : Binding) (n : String) : Option String :=
  match b with
  | [] => none
  | (k, v) :: rest => if k = n then some v else lookupBinding rest n

/-- The render-time error taxonomy of the specification (section 4.2). -/
inductive RenderError where
  | MissingRequiredInput (name : String)
  | InvalidEnumValue (name value : String)
deriving DecidableEq, Repr

/-- Modelled from the spec: the Command Renderer's resolution of a single
input (section 4.2 of the specification; the renderer itself lives in the
`pollination_dsl` framework, outside this repository).  A bound value must
be a member of the input's enum when one is declared; an unbound input
falls back to its default, and a required input with neither fails with
`MissingRequiredInput`. -/
def resolveValue (b : Binding) (i : InputSpec) : Except RenderError (Option String) :=
  match lookupBinding b i.name with
  | some v =>
    match i.enum with
    | some allowed => if v ∈ allowed then .ok (some v) else .error (.InvalidEnumValue i.name v)
    | none => .ok (some v)
  | none =>
    match i.default with
    | some d => .ok (some d)
    | none => if i.optional then .ok none else .error (.MissingRequiredInput i.name)

/-- Modelled from the spec: resolve every declared input in order into an
environment of name/value pairs; the first failing input fails rendering. -/
def resolveInputs (b : Binding) : List InputSpec → Except RenderError Binding
  | [] => .ok []
  | i :: rest =>
    match resolveValue b i with
    | .error e => .error e
    | .ok none => resolveInputs b rest
    | .ok (some v) =>
      match resolveInputs b rest with
      | .error e => .error e
      | .ok env => .ok ((i.name, v) :: env)

/-- Modelled from the spec: substitute every placeholder of the template
verbatim from the resolved environment (section 4.2: the renderer's
contract is string substitution only). -/
def substChunks (env : Binding) : List Chunk → Except RenderError String
  | [] => .ok ""
  | Chunk.lit s :: rest =>
    match substChunks env rest with
    | .error e => .error e
    | .ok t => .ok (s ++ t)
  | Chunk.ph n :: rest =>
    match lookupBinding env n with
    | none => .error (.MissingRequiredInput n)
    | some v =>
      match substChunks env rest with
      | .error e => .error e
      | .ok t => .ok (v ++ t)

/-- Modelled from the spec: the Command Renderer (section 4.2).  Given a
descriptor and a concrete binding it resolves all inputs and substitutes
the template, producing the literal command line. -/
def render (f : Function) (b : Binding) : Except RenderError String :=
  match resolveInputs b f.inputs with
  | .error e => .error e
  | .ok env => substChunks env f.template

/-- `PmvMap` from `map.py`: inputs, the `run_pmv_map` command template and
outputs, transcribed field by field. -/
def PmvMap : Function :=
  ⟨"pmv-map",
   [Inputs.file "result_sql" "result.sql" ["sql", "db", "sqlite"] false,
    Inputs.file "enclosure_info" "enclosure_info.json" ["json"] false,
    Inputs.file "epw" "weather.epw" ["epw"] false,
    Inputs.file "total_irradiance" "total.ill" ["ill", "irr"] false,
    Inputs.file "direct_irradiance" "direct.ill" ["ill", "irr"] false,
    Inputs.file "ref_irradiance" "ref.ill" ["ill", "irr"] false,
    Inputs.file "sun_up_hours" "sun-up-hours.txt" [] false,
    Inputs.str "air_speed" (some "0.1") none,
    Inputs.str "met_rate" (some "1.1") none,
    Inputs.str "clo_value" (some "0.7") none,
    Inputs.str "solarcal_par"
      (some "--posture seated --sharp 135 --absorptivity 0.7 --emissivity 0.95") none,
    Inputs.str "comfort_par" (some "--ppd-threshold 10") none,
    Inputs.str "run_period" (some "") none,
    Inputs.str "write_set_map" (some "write-op-map")
      (some ["write-op-map", "write-set-map"])],
   [Chunk.lit "ladybug-comfort map pmv result.sql enclosure_info.json weather.epw --total-irradiance total.ill --direct-irradiance direct.ill --ref-irradiance ref.ill --sun-up-hours sun-up-hours.txt --air-speed \"",
    Chunk.ph "air_speed",
    Chunk.lit "\" --met-rate \"",
    Chunk.ph "met_rate",
    Chunk.lit "\" --clo-value \"",
    Chunk.ph "clo_value",
    Chunk.lit "\" --solarcal-par \"",
    Chunk.ph "solarcal_par",
    Chunk.lit "\" --comfort-par \"",
    Chunk.ph "comfort_par",
    Chunk.lit "\" --run-period \"",
    Chunk.ph "run_period",
    Chunk.lit "\" --",
    Chunk.ph "write_set_map",
    Chunk.lit "  --folder output"],
   [Outputs.folder "result_folder" "output",
    Outputs.file "temperature_map" "output/temperature.csv",
    Outputs.file "condition_map" "output/condition.csv",
    Outputs.file "pmv_map" "output/condition_intensity.csv"]⟩

/-- `AdaptiveMap` from `map.py`: inputs, the `run_adaptive_map` command
template and outputs, transcribed field by field. -/
def AdaptiveMap : Function :=
  ⟨"adaptive-map",
   [Inputs.file "result_sql" "result.sql" ["sql", "db", "sqlite"] false,
    Inputs.file "enclosure_info" "enclosure_info.json" ["json"] false,
    Inputs.file "epw" "weather.epw" ["epw"] false,
    Inputs.file "total_irradiance" "total.ill" ["ill", "irr"] false,
    Inputs.file "direct_irradiance" "direct.ill" ["ill", "irr"] false,
    Inputs.file "ref_irradiance" "ref.ill" ["ill", "irr"] false,
    Inputs.file "sun_up_hours" "sun-up-hours.txt" [] false,
    Inputs.str "air_speed" (some "0.1") none,
    Inputs.str "solarcal_par"
      (some "--posture seated --sharp 135 --absorptivity 0.7 --emissivity 0.95") none,
    Inputs.str "comfort_par" (some "--standard ASHRAE-55") none,
    Inputs.str "run_period" (some "") none],
   [Chunk.lit "ladybug-comfort map adaptive result.sql enclosure_info.json weather.epw --total-irradiance total.ill --direct-irradiance direct.ill --ref-irradiance ref.ill --sun-up-hours sun-up-hours.txt --air-speed \"",
    Chunk.ph "air_speed",
    Chunk.lit "\" --solarcal-par \"",
    Chunk.ph "solarcal_par",
    Chunk.lit "\" --comfort-par \"",
    Chunk.ph "comfort_par",
    Chunk.lit "\" --run-period \"",
    Chunk.ph "run_period",
    Chunk.lit "\" --folder output"],
   [Outputs.folder "result_folder" "output",
    Outputs.file "temperature_map" "output/temperature.csv",
    Outputs.file "condition_map" "output/condition.csv",
    Outputs.file "deg_from_neutral_map" "output/condition_intensity.csv"]⟩

/-- `UtciMap` from `map.py`: inputs, the `run_utci_map` command template
and outputs, transcribed field by field. -/
def UtciMap : Function :=
  ⟨"utci-map",
   [Inputs.file "result_sql" "result.sql" ["sql", "db", "sqlite"] false,
    Inputs.file "enclosure_info" "enclosure_info.json" ["json"] false,
    Inputs.file "epw" "weather.epw" ["epw"] false,
    Inputs.file "total_irradiance" "total.ill" ["ill", "irr"] false,
    Inputs.file "direct_irradiance" "direct.ill" ["ill", "irr"] false,
    Inputs.file "ref_irradiance" "ref.ill" ["ill", "irr"] false,
    Inputs.file "sun_up_hours" "sun-up-hours.txt" [] false,
    Inputs.str "wind_speed" (some "0.5") none,
    Inputs.str "solarcal_par"
      (some "--posture seated --sharp 135 --absorptivity 0.7 --emissivity 0.95") none,
    Inputs.str "comfort_par" (some "--cold 9 --heat 26") none,
    Inputs.str "run_period" (some "") none],
   [Chunk.lit "ladybug-comfort map utci result.sql enclosure_info.json weather.epw --total-irradiance total.ill --direct-irradiance direct.ill --ref-irradiance ref.ill --sun-up-hours sun-up-hours.txt --wind-speed \"",
    Chunk.ph "wind_speed",
    Chunk.lit "\" --solarcal-par \"",
    Chunk.ph "solarcal_par",
    Chunk.lit "\" --comfort-par \"",
    Chunk.ph "comfort_par",
    Chunk.lit "\" --run-period \"",
    Chunk.ph "run_period",
    Chunk.lit "\" --folder output"],
   [Outputs.folder "result_folder" "output",
    Outputs.file "temperature_map" "output/temperature.csv",
    Outputs.file "condition_map" "output/condition.csv",
    Outputs.file "category_map" "output/condition_intensity.csv"]⟩

/-- `IrradianceContribMap` from `map.py`: inputs, the
`run_irradiance_contrib` command template and outputs, transcribed field
by field. -/
def IrradianceContribMap : Function :=
  ⟨"irradiance-contrib-map",
   [Inputs.file "result_sql" "result.sql" ["sql", "db", "sqlite"] false,
    Inputs.file "direct_specular" "direct_spec.ill" ["ill", "irr"] false,
    Inputs.file "indirect_specular" "indirect_spec.ill" ["ill", "irr"] false,
    Inputs.file "ref_specular" "ref_spec.ill" ["ill", "irr"] false,
    Inputs.file "indirect_diffuse" "indirect_diff.ill" ["ill", "irr"] false,
    Inputs.file "ref_diffuse" "ref_diff.ill" ["ill", "irr"] false,
    Inputs.file "sun_up_hours" "sun-up-hours.txt" [] false,
    Inputs.str "aperture_id" none none],
   [Chunk.lit "ladybug-comfort map irradiance-contrib result.sql direct_spec.ill indirect_spec.ill ref_spec.ill indirect_diff.ill ref_diff.ill sun-up-hours.txt --aperture-id \"",
    Chunk.ph "aperture_id",
    Chunk.lit "\" --folder output"],
   [Outputs.folder "result_folder" "output"]⟩

/-- `ShortwaveMrtMap` from `map.py`: inputs, the `run_shortwave_map`
command template and outputs, transcribed field by field. -/
def ShortwaveMrtMap : Function :=
  ⟨"shortwave-mrt-map",
   [Inputs.file "epw" "weather.epw" ["epw"] false,
    Inputs.file "indirect_irradiance" "indirect.ill" ["ill", "irr"] false,
    Inputs.file "direct_irradiance" "direct.ill" ["ill", "irr"] false,
    Inputs.file "ref_irradiance" "ref.ill" ["ill", "irr"] false,
    Inputs.file "sun_up_hours" "sun-up-hours.txt" [] false,
    Inputs.folder "contributions" "dynamic" true,
    Inputs.str "solarcal_par"
      (some "--posture seated --sharp 135 --absorptivity 0.7 --emissivity 0.95") none,
    Inputs.str "run_period" (some "") none,
    Inputs.str "indirect_is_total" (some "is-indirect")
      (some ["is-indirect", "indirect-is-total"])],
   [Chunk.lit "ladybug-comfort map shortwave-mrt weather.epw indirect.ill direct.ill ref.ill sun-up-hours.txt --contributions dynamic --solarcal-par \"",
    Chunk.ph "solarcal_par",
    Chunk.lit "\" --run-period \"",
    Chunk.ph "run_period",
    Chunk.lit "\" --",
    Chunk.ph "indirect_is_total",
    Chunk.lit " --output-file shortwave.csv"],
   [Outputs.file "shortwave_mrt_map" "shortwave.csv"]⟩

/-- `LongwaveMrtMap` from `map.py`: inputs, the `run_longwave_map` command
template and outputs, transcribed field by field. -/
def LongwaveMrtMap : Function :=
  ⟨"longwave-mrt-map",
   [Inputs.file "result_sql" "result.sql" ["sql", "db", "sqlite"] false,
    Inputs.file "view_factors" "view_factors.csv" ["csv"] false,
    Inputs.file "modifiers" "view_factors.mod" ["mod", "txt"] false,
    Inputs.file "enclosure_info" "enclosure_info.json" ["json"] false,
    Inputs.file "epw" "weather.epw" ["epw"] false,
    Inputs.str "run_period" (some "") none],
   [Chunk.lit "ladybug-comfort map longwave-mrt result.sql view_factors.csv view_factors.mod enclosure_info.json weather.epw --run-period \"",
    Chunk.ph "run_period",
    Chunk.lit "\" --output-file longwave.csv"],
   [Outputs.file "longwave_mrt_map" "longwave.csv"]⟩

/-- `AirMap` from `map.py`: inputs, the `run_air_map` command template and
outputs, transcribed field by field. -/
def AirMap : Function :=
  ⟨"air-map",
   [Inputs.file "result_sql" "result.sql" ["sql", "db", "sqlite"] false,
    Inputs.file "enclosure_info" "enclosure_info.json" ["json"] false,
    Inputs.file "epw" "weather.epw" ["epw"] false,
    Inputs.str "run_period" (some "") none,
    Inputs.str "metric" (some "air-temperature")
      (some ["air-temperature", "relative-humidity"])],
   [Chunk.lit "ladybug-comfort map air result.sql enclosure_info.json weather.epw --run-period \"",
    Chunk.ph "run_period",
    Chunk.lit "\" --",
    Chunk.ph "metric",
    Chunk.lit " --output-file air.csv"],
   [Outputs.file "air_map" "air.csv"]⟩

/-- `MapResultInfo` from `map.py`: inputs, the `map_results_information`
command template and outputs, transcribed field by field. -/
def MapResultInfo : Function :=
  ⟨"map-result-info",
   [Inputs.str "comfort_model" none (some ["pmv", "adaptive", "utci"]),
    Inputs.str "run_period" (some "") none,
    Inputs.str "qualifier" (some "") none],
   [Chunk.lit "ladybug-comfort map map-result-info ",
    Chunk.ph "comfort_model",
    Chunk.lit " --run-period \"",
    Chunk.ph "run_period",
    Chunk.lit "\" --qualifier \"",
    Chunk.ph "qualifier",
    Chunk.lit "\" --folder output --log-file results_info.json"],
   [Outputs.file "results_info_file" "results_info.json",
    Outputs.file "viz_config_file" "config.json",
    Outputs.file "temperature_info" "output/temperature.json",
    Outputs.file "condition_info" "output/condition.json",
    Outputs.file "condition_intensity_info" "output/condition_intensity.json"]⟩

/-- `Tcp` from `map.py`: inputs, the `compute_tcp` command template and
outputs, transcribed field by field. -/
def Tcp : Function :=
  ⟨"tcp",
   [Inputs.file "condition_csv" "condition.csv" ["csv", "cond"] false,
    Inputs.file "enclosure_info" "enclosure_info.json" ["json"] false,
    Inputs.file "occ_schedule_json" "occ_schedule.json" ["json"] false,
    Inputs.file "schedule" "schedule.txt" [] true],
   [Chunk.lit "ladybug-comfort map tcp condition.csv enclosure_info.json --schedule schedule.txt --occ-schedule-json occ_schedule.json --folder output"],
   [Outputs.file "tcp" "output/tcp.csv",
    Outputs.file "hsp" "output/hsp.csv",
    Outputs.file "csp" "output/csp.csv"]⟩

/-- The fixed catalog of the nine task descriptors of `map.py`, in source
order. -/
def allFunctions : List Function :=
  [PmvMap, AdaptiveMap, UtciMap, IrradianceContribMap, ShortwaveMrtMap,
   LongwaveMrtMap, AirMap, MapResultInfo, Tcp]

/-- Number of (possibly overlapping) occurrences of `pat` in a character
list: one per position at which `pat` starts. -/
def countOcc (pat : List Char) : List Char → Nat
  | [] => if List.isPrefixOf pat [] then 1 else 0
  | c :: rest => (if List.isPrefixOf pat (c :: rest) then 1 else 0) + countOcc pat rest

/-- Number of occurrences of the pattern `pat` in the string `s`. -/
def strCount (s pat : String) : Nat := countOcc pat.data s.data

/-- Whether the pattern `pat` occurs in the string `s`. -/
def strHas (s pat : String) : Bool := decide (0 < strCount s pat)

/-- The output-collection error of the specification (section 4.3): a
declared output path is absent after execution. -/
inductive CollectError where
  | MissingOutput (name path : String)
deriving DecidableEq, Repr

/-- Modelled from the spec: the Output Collector (section 4.3; it lives in
the surrounding framework, outside this repository).  Given which paths
exist after the external command ran, it reports every declared output as
a named artifact, and fails the whole task on the first declared path that
is absent. -/
def collectOutputs (ex : String → Bool) : List OutputSpec → Except CollectError (List (String × String))
  | [] => .ok []
  | o :: rest =>
    if ex o.path then
      match collectOutputs ex rest with
      | .error e => .error e
      | .ok arts => .ok ((o.name, o.path) :: arts)
    else .error (.MissingOutput o.name o.path)

/-- Modelled from the spec: output collection for a whole descriptor. -/
def collect (f : Function) (ex : String → Bool) : Except CollectError (List (String × String)) :=
  collectOutputs ex f.outputs

/-- The names of the placeholders of a template, in order. -/
def phNames : List Chunk → List String
  | [] => []
  | Chunk.lit _ :: rest => phNames rest
  | Chunk.ph n :: rest => n :: phNames rest

/-- Every placeholder of the descriptor's template names a declared input. -/
def placeholdersDeclared (f : Function) : Bool :=
  (phNames f.template).all (fun n => f.inputs.any (fun i => i.name == n))

/-- The input is referenced by the descriptor's template: a string input
through a placeholder of its name, a file or folder input through its
declared local path occurring in the literal text of the template. -/
def inputReferenced (f : Function) (i : InputSpec) : Bool :=
  match i.kind with
  | IOKind.str => (phNames f.template).contains i.name
  | _ =>
    match i.path with
    | some p => f.template.any (fun c => match c with
        | Chunk.lit s => strHas s p
        | Chunk.ph _ => false)
    | none => false

/-- The input is required and has no default, so a binding must supply it. -/
def isRequiredNoDefault (i : InputSpec) : Bool := !i.optional && i.default.isNone

/-- Every placeholder of the template names a non-optional declared input
(such an input always resolves to a value when rendering succeeds). -/
def phOk (f : Function) : Bool :=
  (phNames f.template).all (fun n => f.inputs.any (fun i => i.name == n && !i.optional))

/-- No enum-carrying input precedes a required non-defaulted input in the
declaration order (so a missing required input is always reported before
any invalid enum value). -/
def noEnumBeforeRequired : List InputSpec → Bool
  | [] => true
  | i :: rest =>
    (!i.enum.isSome || !rest.any isRequiredNoDefault) && noEnumBeforeRequired rest

/-- The requiredness check for one input against its looked-up value: the
input is optional, or defaulted, or the binding supplies a value. -/
def reqCheck (i : InputSpec) (r : Option String) : Bool :=
  i.optional || i.default.isSome || r.isSome

/-- The enum check for one input against its looked-up value: a bound
value of an enum-constrained input must be a member of the enum. -/
def enumCheck (i : InputSpec) (r : Option String) : Bool :=
  match i.enum, r with
  | some a, some v => decide (v ∈ a)
  | _, _ => true

/-- The binding supplies a value for every required non-defaulted input of
the descriptor. -/
def RequiredBound (f : Function) (b : Binding) : Prop :=
  ∀ i ∈ f.inputs, reqCheck i (lookupBinding b i.name) = true

/-- Every enum-constrained input of the descriptor that the binding
supplies is set to a member of its declared enum. -/
def EnumValuesOk (f : Function) (b : Binding) : Prop :=
  ∀ i ∈ f.inputs, enumCheck i (lookupBinding b i.name) = true

/-- A binding that materializes the seven file inputs of the PMV map
descriptor at their declared paths. -/
def pmvFilesB : Binding :=
  [("result_sql", "result.sql"), ("enclosure_info", "enclosure_info.json"),
   ("epw", "weather.epw"), ("total_irradiance", "total.ill"),
   ("direct_irradiance", "direct.ill"), ("ref_irradiance", "ref.ill"),
   ("sun_up_hours", "sun-up-hours.txt")]

/-- The PMV scenario binding: files at their paths, the documented string
values, and `write_set_map` left unbound so its default applies. -/
def pmvDefaultB : Binding :=
  pmvFilesB ++
  [("air_speed", "0.1"), ("met_rate", "1.1"), ("clo_value", "0.7"),
   ("solarcal_par", "--posture seated --sharp 135 --absorptivity 0.7 --emissivity 0.95"),
   ("comfort_par", "--ppd-threshold 10"), ("run_period", "")]

/-- The PMV scenario binding with `write_set_map` bound to `write-op-map`. -/
def pmvOpB : Binding := pmvDefaultB ++ [("write_set_map", "write-op-map")]

/-- The PMV scenario binding with `write_set_map` bound to `write-set-map`. -/
def pmvSetB : Binding := pmvDefaultB ++ [("write_set_map", "write-set-map")]

/-- A PMV binding whose `write_set_map` value is outside the declared enum. -/
def pmvBogusB : Binding := pmvFilesB ++ [("write_set_map", "bogus")]

/-- Everything of the rendered PMV command before the value of the
`write_set_map` switch. -/
def pmvCmdFront : String :=
  "ladybug-comfort map pmv result.sql enclosure_info.json weather.epw --total-irradiance total.ill --direct-irradiance direct.ill --ref-irradiance ref.ill --sun-up-hours sun-up-hours.txt --air-speed \"0.1\" --met-rate \"1.1\" --clo-value \"0.7\" --solarcal-par \"--posture seated --sharp 135 --absorptivity 0.7 --emissivity 0.95\" --comfort-par \"--ppd-threshold 10\" --run-period \"\" --"

/-- Everything of the rendered PMV command after the value of the
`write_set_map` switch. -/
def pmvCmdBack : String := "  --folder output"

/-- The PMV command rendered from `pmvDefaultB`. -/
def pmvCmdDefault : String := pmvCmdFront ++ "write-op-map" ++ pmvCmdBack

/-- A binding that materializes the seven file inputs of the
irradiance-contribution descriptor at their declared paths. -/
def irradFilesB : Binding :=
  [("result_sql", "result.sql"), ("direct_specular", "direct_spec.ill"),
   ("indirect_specular", "indirect_spec.ill"), ("ref_specular", "ref_spec.ill"),
   ("indirect_diffuse", "indirect_diff.ill"), ("ref_diffuse", "ref_diff.ill"),
   ("sun_up_hours", "sun-up-hours.txt")]

/-- The irradiance-contribution scenario binding with the documented
aperture identifier. -/
def irradB : Binding := irradFilesB ++ [("aperture_id", "Room_1_Glz")]

/-- The irradiance-contribution command rendered from `irradB`, written as
subcommand, the six positional result/irradiance files in order, the
sun-up-hours positional argument, and the trailing flags. -/
def irradCmd : String :=
  "ladybug-comfort map irradiance-contrib " ++
  "result.sql direct_spec.ill indirect_spec.ill ref_spec.ill indirect_diff.ill ref_diff.ill " ++
  "sun-up-hours.txt " ++
  "--aperture-id \"Room_1_Glz\" --folder output"

/-- A binding for the shortwave MRT descriptor that materializes its five
file inputs and leaves the optional `contributions` folder unbound. -/
def shortwaveB : Binding :=
  [("epw", "weather.epw"), ("indirect_irradiance", "indirect.ill"),
   ("direct_irradiance", "direct.ill"), ("ref_irradiance", "ref.ill"),
   ("sun_up_hours", "sun-up-hours.txt")]

/-- The shortwave MRT command rendered from `shortwaveB`. -/
def shortwaveCmd : String :=
  "ladybug-comfort map shortwave-mrt weather.epw indirect.ill direct.ill ref.ill sun-up-hours.txt --contributions dynamic --solarcal-par \"--posture seated --sharp 135 --absorptivity 0.7 --emissivity 0.95\" --run-period \"\" --is-indirect --output-file shortwave.csv"

/-- A binding for the TCP descriptor that materializes its three required
file inputs and leaves the optional `schedule` file unbound. -/
def tcpB : Binding :=
  [("condition_csv", "condition.csv"), ("enclosure_info", "enclosure_info.json"),
   ("occ_schedule_json", "occ_schedule.json")]

/-- The TCP command (the template has no placeholders). -/
def tcpCmd : String :=
  "ladybug-comfort map tcp condition.csv enclosure_info.json --schedule schedule.txt --occ-schedule-json occ_schedule.json --folder output"

/-- A binding for the air map descriptor that materializes its three file
inputs. -/
def airB : Binding :=
  [("result_sql", "result.sql"), ("enclosure_info", "enclosure_info.json"),
   ("epw", "weather.epw")]

/-- An input whose requiredness and enum checks pass resolves without an
error. -/
theorem resolveValue_isOk (b : Binding) (i : InputSpec)
    (h1 : reqCheck i (lookupBinding b i.name) = true)
    (h2 : enumCheck i (lookupBinding b i.name) = true) :
    ∃ r, resolveValue b i = .ok r := by
  unfold resolveValue
  cases hl : lookupBinding b i.name with
  | some v =>
    cases he : i.enum with
    | some allowed =>
      rw [hl] at h2
      simp only [enumCheck, he] at h2
      have hv : v ∈ allowed := of_decide_eq_true h2
      exact ⟨some v, by simp [hv]⟩
    | none => exact ⟨some v, rfl⟩
  | none =>
    cases hd : i.default with
    | some d => exact ⟨some d, rfl⟩
    | none =>
      cases ho : i.optional with
      | true => exact ⟨none, by simp⟩
      | false =>
        rw [hl] at h1
        simp [reqCheck, hd, ho] at h1

/-- A non-optional input whose requiredness and enum checks pass resolves
to an actual value. -/
theorem resolveValue_isSome (b : Binding) (i : InputSpec)
    (h1 : reqCheck i (lookupBinding b i.name) = true)
    (h2 : enumCheck i (lookupBinding b i.name) = true)
    (hop : i.optional = false) :
    ∃ v, resolveValue b i = .ok (some v) := by
  unfold resolveValue
  cases hl : lookupBinding b i.name with
  | some v =>
    cases he : i.enum with
    | some allowed =>
      rw [hl] at h2
      simp only [enumCheck, he] at h2
      have hv : v ∈ allowed := of_decide_eq_true h2
      exact ⟨v, by simp [hv]⟩
    | none => exact ⟨v, rfl⟩
  | none =>
    cases hd : i.default with
    | some d => exact ⟨d, rfl⟩
    | none =>
      rw [hl] at h1
      simp [reqCheck, hd, hop] at h1

/-- If every input of the list resolves without an error, so does the
whole input resolution. -/
theorem resolveInputs_isOk (b : Binding) (l : List InputSpec)
    (h : ∀ i ∈ l, ∃ r, resolveValue b i = .ok r) :
    ∃ env, resolveInputs b l = .ok env := by
  induction l with
  | nil => exact ⟨[], rfl⟩
  | cons i rest ih =>
    obtain ⟨r, hr⟩ := h i (List.mem_cons_self i rest)
    obtain ⟨env, henv⟩ := ih (fun j hj => h j (List.mem_cons_of_mem i hj))
    cases r with
    | none => exact ⟨env, by simp [resolveInputs, hr, henv]⟩
    | some v => exact ⟨(i.name, v) :: env, by simp [resolveInputs, hr, henv]⟩

/-- An input that resolves to an actual value has an entry of its name in
the resolved environment. -/
theorem resolveInputs_lookup (b : Binding) (l : List InputSpec)
    (i : InputSpec) (v : String) (hv : resolveValue b i = .ok (some v)) :
    ∀ env, resolveInputs b l = .ok env → i ∈ l →
      ∃ w, lookupBinding env i.name = some w := by
  induction l with
  | nil => intro env _ hi; cases hi
  | cons j rest ih =>
    intro env henv hi
    unfold resolveInputs at henv
    cases hr : resolveValue b j with
    | error e => rw [hr] at henv; cases henv
    | ok r =>
      rw [hr] at henv
      cases r with
      | none =>
        rcases List.mem_cons.mp hi with hij | hmem
        · subst hij; rw [hv] at hr; cases hr
        · exact ih env henv hmem
      | some u =>
        cases hrest : resolveInputs b rest with
        | error e => rw [hrest] at henv; cases henv
        | ok env' =>
          rw [hrest] at henv
          cases henv
          rcases List.mem_cons.mp hi with hij | hmem
          · subst hij
            exact ⟨u, by simp [lookupBinding]⟩
          · obtain ⟨w, hw⟩ := ih env' hrest hmem
            by_cases hname : j.name = i.name
            · exact ⟨u, by simp [lookupBinding, hname]⟩
            · exact ⟨w, by simp [lookupBinding, hname, hw]⟩

/-- If every placeholder of the template has an entry in the environment,
substitution succeeds. -/
theorem substChunks_isOk (env : Binding) (tmpl : List Chunk)
    (h : ∀ n ∈ phNames tmpl, ∃ w, lookupBinding env n = some w) :
    ∃ s, substChunks env tmpl = .ok s := by
  induction tmpl with
  | nil => exact ⟨"", rfl⟩
  | cons c rest ih =>
    cases c with
    | lit u =>
      obtain ⟨t, ht⟩ := ih (fun n hn => h n (by simpa [phNames] using hn))
      exact ⟨u ++ t, by simp [substChunks, ht]⟩
    | ph n =>
      obtain ⟨w, hw⟩ := h n (by simp [phNames])
      obtain ⟨t, ht⟩ := ih (fun m hm => h m (by simp [phNames, hm]))
      exact ⟨w ++ t, by simp [substChunks, hw, ht]⟩

/-- Modelled renderer safety: a descriptor whose placeholders all name
non-optional inputs renders successfully from any binding that satisfies
the requiredness and enum checks. -/
theorem render_isOk (f : Function) (b : Binding)
    (hph : phOk f = true) (h1 : RequiredBound f b) (h2 : EnumValuesOk f b) :
    ∃ s, render f b = .ok s := by
  have hres : ∀ i ∈ f.inputs, ∃ r, resolveValue b i = .ok r :=
    fun i hi => resolveValue_isOk b i (h1 i hi) (h2 i hi)
  obtain ⟨env, henv⟩ := resolveInputs_isOk b f.inputs hres
  have hlook : ∀ n ∈ phNames f.template, ∃ w, lookupBinding env n = some w := by
    intro n hn
    have hall := List.all_eq_true.mp hph n hn
    obtain ⟨i, hi, hcond⟩ := List.any_eq_true.mp hall
    obtain ⟨hbeq, hopt⟩ := Bool.and_eq_true_iff.mp hcond
    have hname : i.name = n := eq_of_beq hbeq
    have hop : i.optional = false := by
      cases hoc : i.optional with
      | false => rfl
      | true => rw [hoc] at hopt; cases hopt
    obtain ⟨v, hv⟩ := resolveValue_isSome b i (h1 i hi) (h2 i hi) hop
    obtain ⟨w, hw⟩ := resolveInputs_lookup b f.inputs i v hv env henv hi
    exact ⟨w, hname ▸ hw⟩
  obtain ⟨s, hs⟩ := substChunks_isOk env f.template hlook
  exact ⟨s, by simp [render, henv, hs]⟩

/-- If the whole input resolution succeeded, every single input resolved
without an error. -/
theorem resolveInputs_each (b : Binding) (l : List InputSpec) :
    ∀ env, resolveInputs b l = .ok env →
      ∀ i ∈ l, ∃ r, resolveValue b i = .ok r := by
  induction l with
  | nil => intro env _ i hi; cases hi
  | cons j rest ih =>
    intro env henv i hi
    unfold resolveInputs at henv
    cases hr : resolveValue b j with
    | error e => rw [hr] at henv; cases henv
    | ok r =>
      rw [hr] at henv
      rcases List.mem_cons.mp hi with hij | hmem
      · subst hij; exact ⟨r, hr⟩
      · cases r with
        | none => exact ih env henv i hmem
        | some u =>
          cases hrest : resolveInputs b rest with
          | error e => rw [hrest] at henv; cases henv
          | ok env' => exact ih env' hrest i hmem

/-- An input without an enum can only fail resolution by being required,
non-defaulted and unbound. -/
theorem resolveValue_enum_none (b : Binding) (j : InputSpec) (hje : j.enum = none)
    (e : RenderError) (hr : resolveValue b j = .error e) :
    e = .MissingRequiredInput j.name := by
  unfold resolveValue at hr
  cases hl : lookupBinding b j.name with
  | some v => rw [hl, hje] at hr; cases hr
  | none =>
    rw [hl] at hr
    cases hd : j.default with
    | some d => rw [hd] at hr; cases hr
    | none =>
      rw [hd] at hr
      cases ho : j.optional with
      | true => rw [ho] at hr; simp at hr
      | false =>
        rw [ho] at hr
        simp only [Bool.false_eq_true, if_false] at hr
        exact (Except.error.injEq _ _).mp hr.symm

/-- When no enum input precedes a required input, a binding that omits a
required non-defaulted input makes input resolution fail with
`MissingRequiredInput`. -/
theorem resolveInputs_missing (b : Binding) (l : List InputSpec)
    (hord : noEnumBeforeRequired l = true)
    (hmiss : ∃ i ∈ l, isRequiredNoDefault i = true ∧ lookupBinding b i.name = none) :
    ∃ n, resolveInputs b l = .error (.MissingRequiredInput n) := by
  induction l with
  | nil => obtain ⟨i, hi, _⟩ := hmiss; cases hi
  | cons j rest ih =>
    obtain ⟨i, hi, hreq, hnone⟩ := hmiss
    have hords := Bool.and_eq_true_iff.mp hord
    rcases List.mem_cons.mp hi with hij | hmem
    · subst hij
      obtain ⟨h1', h2'⟩ := Bool.and_eq_true_iff.mp hreq
      have ho : i.optional = false := by
        cases hoc : i.optional with
        | false => rfl
        | true => rw [hoc] at h1'; cases h1'
      have hd : i.default = none := by
        cases hdc : i.default with
        | none => rfl
        | some d => rw [hdc] at h2'; cases h2'
      have hval : resolveValue b i = .error (.MissingRequiredInput i.name) := by
        unfold resolveValue
        rw [hnone, hd, ho]
        simp
      exact ⟨i.name, by simp [resolveInputs, hval]⟩
    · have hany : rest.any isRequiredNoDefault = true :=
        List.any_eq_true.mpr ⟨i, hmem, hreq⟩
      cases hr : resolveValue b j with
      | error e =>
        have hje : j.enum = none := by
          cases hec : j.enum with
          | none => rfl
          | some a => rw [hec, hany] at hords; simp at hords
        have he := resolveValue_enum_none b j hje e hr
        exact ⟨j.name, by simp [resolveInputs, hr, he]⟩
      | ok r =>
        obtain ⟨n, hn⟩ := ih hords.2 ⟨i, hmem, hreq, hnone⟩
        cases r with
        | none => exact ⟨n, by simp [resolveInputs, hr, hn]⟩
        | some u => exact ⟨n, by simp [resolveInputs, hr, hn]⟩

/-- The literal text of any template chunk occurs verbatim in a
successfully substituted command. -/
theorem substChunks_lit (env : Binding) (tmpl : List Chunk) (t : String)
    (ht : Chunk.lit t ∈ tmpl) :
    ∀ s, substChunks env tmpl = .ok s → ∃ p q, s = p ++ t ++ q := by
  induction tmpl with
  | nil => cases ht
  | cons c rest ih =>
    intro s hs
    cases c with
    | lit u =>
      unfold substChunks at hs
      cases hrest : substChunks env rest with
      | error e => rw [hrest] at hs; cases hs
      | ok t' =>
        rw [hrest] at hs
        cases hs
        rcases List.mem_cons.mp ht with hcu | hmem
        · cases hcu
          exact ⟨"", t', by rw [String.empty_append]⟩
        · obtain ⟨p, q, hpq⟩ := ih hmem t' hrest
          exact ⟨u ++ p, q, by rw [hpq, String.append_assoc, String.append_assoc,
            String.append_assoc]⟩
    | ph n =>
      unfold substChunks at hs
      cases hl : lookupBinding env n with
      | none => rw [hl] at hs; cases hs
      | some v =>
        rw [hl] at hs
        cases hrest : substChunks env rest with
        | error e => rw [hrest] at hs; cases hs
        | ok t' =>
          rw [hrest] at hs
          cases hs
          rcases List.mem_cons.mp ht with hcu | hmem
          · cases hcu
          · obtain ⟨p, q, hpq⟩ := ih hmem t' hrest
            exact ⟨v ++ p, q, by rw [hpq, String.append_assoc, String.append_assoc,
              String.append_assoc]⟩

/-- The rendered command depends on the binding only through the values
looked up for input names. -/
theorem renderOnlyReadsBinding (f : Function) (b1 b2 : Binding)
    (h : ∀ n, lookupBinding b1 n = lookupBinding b2 n) :
    render f b1 = render f b2 := by
  have hval : ∀ i, resolveValue b1 i = resolveValue b2 i := by
    intro i
    unfold resolveValue
    rw [h i.name]
  have hres : ∀ l, resolveInputs b1 l = resolveInputs b2 l := by
    intro l
    induction l with
    | nil => rfl
    | cons i rest ih =>
      unfold resolveInputs
      rw [hval i, ih]
  unfold render
  rw [hres f.inputs]

/-- A binding that sets an enum-constrained input to a value outside its
enum never renders successfully. -/
theorem render_enum_violation (f : Function) (b : Binding) (i : InputSpec)
    (hi : i ∈ f.inputs) (a : List String) (he : i.enum = some a) (v : String)
    (hv : lookupBinding b i.name = some v) (hva : v ∉ a) :
    ∀ s, render f b ≠ .ok s := by
  intro s hs
  unfold render at hs
  cases henv : resolveInputs b f.inputs with
  | error e => rw [henv] at hs; cases hs
  | ok env =>
    obtain ⟨r, hr⟩ := resolveInputs_each b f.inputs env henv i hi
    unfold resolveValue at hr
    simp only [hv, he] at hr
    rw [if_neg hva] at hr
    cases hr

/-- A descriptor whose enum inputs come after its required non-defaulted
inputs reports `MissingRequiredInput` whenever a required non-defaulted
input is unbound. -/
theorem render_missing (f : Function) (b : Binding)
    (hord : noEnumBeforeRequired f.inputs = true)
    (hmiss : ∃ i ∈ f.inputs, isRequiredNoDefault i = true ∧ lookupBinding b i.name = none) :
    ∃ n, render f b = .error (.MissingRequiredInput n) := by
  obtain ⟨n, hn⟩ := resolveInputs_missing b f.inputs hord hmiss
  exact ⟨n, by simp [render, hn]⟩

/-- The literal text of any template chunk occurs verbatim in every
successfully rendered command of its descriptor. -/
theorem render_lit (f : Function) (b : Binding) (t : String)
    (ht : Chunk.lit t ∈ f.template) (s : String) (hs : render f b = .ok s) :
    ∃ p q, s = p ++ t ++ q := by
  unfold render at hs
  cases henv : resolveInputs b f.inputs with
  | error e => rw [henv] at hs; cases hs
  | ok env =>
    rw [henv] at hs
    exact substChunks_lit env f.template t ht s hs

/-- Rearranging a five-part string concatenation around its middle part. -/
theorem append_five (p a t c q : String) :
    p ++ (a ++ t ++ c) ++ q = (p ++ a) ++ t ++ (c ++ q) := by
  apply String.ext
  simp [String.data_append, List.append_assoc]

/-- Every descriptor's placeholders name non-optional declared inputs. -/
theorem allFunctions_phOk : allFunctions.all phOk = true := by rfl

/-- In every descriptor, no enum-carrying input precedes a required
non-defaulted input. -/
theorem allFunctions_ord :
    allFunctions.all (fun f => noEnumBeforeRequired f.inputs) = true := by rfl

/-- C1: rendering the PMV map descriptor with `air_speed="0.1"`,
`met_rate="1.1"`, `clo_value="0.7"`, the default SolarCal and PMV
parameter strings and an empty `run_period` produces a command in which
each of these values appears inside its corresponding flag exactly once,
and which contains the flag `--write-op-map` coming from the default of
`write_set_map`. -/
theorem claim_c1_pmv_default_command :
    render PmvMap pmvDefaultB = .ok pmvCmdDefault ∧
    strCount pmvCmdDefault "--air-speed \"0.1\"" = 1 ∧
    strCount pmvCmdDefault "--met-rate \"1.1\"" = 1 ∧
    strCount pmvCmdDefault "--clo-value \"0.7\"" = 1 ∧
    strCount pmvCmdDefault
      "--solarcal-par \"--posture seated --sharp 135 --absorptivity 0.7 --emissivity 0.95\"" = 1 ∧
    strCount pmvCmdDefault "--comfort-par \"--ppd-threshold 10\"" = 1 ∧
    strCount pmvCmdDefault "--run-period \"\"" = 1 ∧
    strCount pmvCmdDefault "--write-op-map" = 1 := by
  refine ⟨by rfl, by rfl, by rfl, by rfl, by rfl, by rfl, by rfl, by rfl⟩

/-- C2: two PMV bindings identical except for the value of
`write_set_map` render to commands that share the whole text before and
after that switch, differing only in `write-op-map` versus
`write-set-map`. -/
theorem claim_c2_pmv_write_set_switch :
    render PmvMap pmvOpB = .ok (pmvCmdFront ++ "write-op-map" ++ pmvCmdBack) ∧
    render PmvMap pmvSetB = .ok (pmvCmdFront ++ "write-set-map" ++ pmvCmdBack) := by
  refine ⟨by rfl, by rfl⟩

/-- C3: rendering the irradiance-contribution descriptor with
`aperture_id="Room_1_Glz"` produces a command containing
`--aperture-id "Room_1_Glz"` exactly once and listing the six positional
result/irradiance files in the documented order before the
sun-up-hours.txt positional argument. -/
theorem claim_c3_irradiance_contrib_command :
    render IrradianceContribMap irradB = .ok irradCmd ∧
    strCount irradCmd "--aperture-id \"Room_1_Glz\"" = 1 ∧
    irradCmd = "ladybug-comfort map irradiance-contrib " ++
      "result.sql direct_spec.ill indirect_spec.ill ref_spec.ill indirect_diff.ill ref_diff.ill " ++
      ("sun-up-hours.txt " ++ "--aperture-id \"Room_1_Glz\" --folder output") := by
  refine ⟨by rfl, by rfl, by rfl⟩

/-- C4: the TCP descriptor declares exactly three file outputs at
`output/tcp.csv`, `output/hsp.csv` and `output/csp.csv`, and output
collection succeeds precisely when all three paths exist after execution,
failing the task otherwise. -/
theorem claim_c4_tcp_outputs :
    Tcp.outputs.map (fun o => (o.kind, o.path)) =
      [(IOKind.file, "output/tcp.csv"), (IOKind.file, "output/hsp.csv"),
       (IOKind.file, "output/csp.csv")] ∧
    ∀ ex : String → Bool,
      (∃ arts, collect Tcp ex = .ok arts) ↔
        (ex "output/tcp.csv" = true ∧ ex "output/hsp.csv" = true ∧
         ex "output/csp.csv" = true) := by
  refine ⟨rfl, fun ex => ?_⟩
  cases h1 : ex "output/tcp.csv" <;> cases h2 : ex "output/hsp.csv" <;>
    cases h3 : ex "output/csp.csv" <;>
    simp [collect, Tcp, collectOutputs, Outputs.file, h1, h2, h3]

/-- Closed instance of C4: with every path present, collection reports
the three artifacts. -/
theorem claim_c4_witness : ∃ arts, collect Tcp (fun _ => true) = .ok arts :=
  (claim_c4_tcp_outputs.2 (fun _ => true)).mpr ⟨rfl, rfl, rfl⟩

/-- C5: in every one of the nine descriptors, each template placeholder
names a declared input, and each declared input is referenced by the
template (string inputs through a placeholder, file and folder inputs
through their declared path in the literal text). -/
theorem claim_c5_placeholders_inputs :
    allFunctions.all
      (fun f => placeholdersDeclared f && f.inputs.all (inputReferenced f)) = true := by
  rfl

/-- C6: rendering any of the nine descriptors succeeds for every binding
that supplies all required non-defaulted inputs and keeps every bound
enum-constrained input inside its enum. -/
theorem claim_c6_render_total :
    ∀ k : Fin allFunctions.length, ∀ b : Binding,
      RequiredBound (allFunctions.get k) b → EnumValuesOk (allFunctions.get k) b →
      ∃ s, render (allFunctions.get k) b = .ok s := by
  intro k b h1 h2
  refine render_isOk _ b ?_ h1 h2
  exact List.all_eq_true.mp allFunctions_phOk _ (allFunctions.get_mem k.1 k.2)

/-- Closed instance of C6: the air map descriptor renders from a binding
of its three file inputs. -/
theorem claim_c6_witness :
    ∃ s, render (allFunctions.get ⟨6, by decide⟩) airB = .ok s :=
  claim_c6_render_total ⟨6, by decide⟩ airB
    (by unfold RequiredBound; decide) (by unfold EnumValuesOk; decide)

/-- C7: binding an enum-constrained input to a value outside its declared
enum makes rendering fail for every descriptor, and in particular the PMV
map descriptor with `write_set_map="bogus"` fails with
`InvalidEnumValue`. -/
theorem claim_c7_invalid_enum :
    (∀ (f : Function) (b : Binding) (i : InputSpec) (a : List String) (v : String),
        i ∈ f.inputs → i.enum = some a → lookupBinding b i.name = some v → v ∉ a →
        ∀ s, render f b ≠ .ok s) ∧
    render PmvMap pmvBogusB = .error (.InvalidEnumValue "write_set_map" "bogus") := by
  refine ⟨?_, by rfl⟩
  intro f b i a v hi he hv hva
  exact render_enum_violation f b i hi a he v hv hva

/-- Closed instance of C7: the bogus PMV binding never yields a command. -/
theorem claim_c7_witness : render PmvMap pmvBogusB ≠ .ok "" :=
  claim_c7_invalid_enum.1 PmvMap pmvBogusB
    (Inputs.str "write_set_map" (some "write-op-map")
      (some ["write-op-map", "write-set-map"]))
    ["write-op-map", "write-set-map"] "bogus" (by decide) rfl (by decide)
    (by decide) ""

/-- C8: leaving any required non-defaulted input of any of the nine
descriptors unbound makes rendering fail with `MissingRequiredInput`; in
particular the irradiance-contribution descriptor without `aperture_id`
and the result-info descriptor without `comfort_model` fail that way. -/
theorem claim_c8_missing_required :
    (∀ k : Fin allFunctions.length, ∀ b : Binding,
        (∃ i ∈ (allFunctions.get k).inputs,
          isRequiredNoDefault i = true ∧ lookupBinding b i.name = none) →
        ∃ n, render (allFunctions.get k) b = .error (.MissingRequiredInput n)) ∧
    render IrradianceContribMap irradFilesB = .error (.MissingRequiredInput "aperture_id") ∧
    render MapResultInfo [] = .error (.MissingRequiredInput "comfort_model") := by
  refine ⟨?_, by rfl, by rfl⟩
  intro k b hmiss
  refine render_missing _ b ?_ hmiss
  exact List.all_eq_true.mp allFunctions_ord _ (allFunctions.get_mem k.1 k.2)

/-- Closed instance of C8: the irradiance-contribution descriptor without
`aperture_id` reports a missing required input. -/
theorem claim_c8_witness :
    ∃ n, render (allFunctions.get ⟨3, by decide⟩) irradFilesB =
      .error (.MissingRequiredInput n) :=
  claim_c8_missing_required.1 ⟨3, by decide⟩ irradFilesB (by decide)

/-- C9: command rendering is deterministic and reads nothing but the
descriptor and the mapping: two bindings that bind every name to the same
value render every descriptor to the same result. -/
theorem claim_c9_render_deterministic :
    ∀ (f : Function) (b1 b2 : Binding),
      (∀ n, lookupBinding b1 n = lookupBinding b2 n) →
      render f b1 = render f b2 := by
  intro f b1 b2 h
  have hval : ∀ i, resolveValue b1 i = resolveValue b2 i := by
    intro i
    unfold resolveValue
    rw [h i.name]
  have hres : ∀ l, resolveInputs b1 l = resolveInputs b2 l := by
    intro l
    induction l with
    | nil => rfl
    | cons i rest ih =>
      unfold resolveInputs
      rw [hval i, ih]
  unfold render
  rw [hres f.inputs]

/-- A binding for the determinism witness: duplicates a key whose second
occurrence is shadowed. -/
def c9B1 : Binding := [("air_speed", "0.3"), ("air_speed", "0.9")]

/-- A binding for the determinism witness: the same mapping as `c9B1`. -/
def c9B2 : Binding := [("air_speed", "0.3")]

/-- Closed instance of C9: two differently-represented but equal mappings
render the PMV descriptor identically. -/
theorem claim_c9_witness : render PmvMap c9B1 = render PmvMap c9B2 :=
  claim_c9_render_deterministic PmvMap c9B1 c9B2 (by
    intro n
    by_cases h : "air_speed" = n <;> simp [c9B1, c9B2, lookupBinding, h])

/-- C10: the shortwave MRT and TCP command templates carry their optional
input's token unconditionally: every successfully rendered shortwave MRT
command contains `--contributions dynamic` and every successfully
rendered TCP command contains `--schedule schedule.txt`, whatever the
binding. -/
theorem claim_c10_optional_flags_unconditional :
    (∀ (b : Binding) (s : String), render ShortwaveMrtMap b = .ok s →
        ∃ p q, s = p ++ "--contributions dynamic" ++ q) ∧
    (∀ (b : Binding) (s : String), render Tcp b = .ok s →
        ∃ p q, s = p ++ "--schedule schedule.txt" ++ q) := by
  constructor
  · intro b s hs
    have ht : Chunk.lit "ladybug-comfort map shortwave-mrt weather.epw indirect.ill direct.ill ref.ill sun-up-hours.txt --contributions dynamic --solarcal-par \"" ∈ ShortwaveMrtMap.template := by
      exact List.mem_cons_self _ _
    obtain ⟨p, q, hpq⟩ := render_lit ShortwaveMrtMap b _ ht s hs
    have hsplit : ("ladybug-comfort map shortwave-mrt weather.epw indirect.ill direct.ill ref.ill sun-up-hours.txt --contributions dynamic --solarcal-par \"" : String) =
        "ladybug-comfort map shortwave-mrt weather.epw indirect.ill direct.ill ref.ill sun-up-hours.txt " ++
        "--contributions dynamic" ++ " --solarcal-par \"" := by rfl
    rw [hsplit] at hpq
    exact ⟨p ++ "ladybug-comfort map shortwave-mrt weather.epw indirect.ill direct.ill ref.ill sun-up-hours.txt ",
      " --solarcal-par \"" ++ q, by rw [hpq, append_five]⟩
  · intro b s hs
    have ht : Chunk.lit "ladybug-comfort map tcp condition.csv enclosure_info.json --schedule schedule.txt --occ-schedule-json occ_schedule.json --folder output" ∈ Tcp.template := by
      exact List.mem_cons_self _ _
    obtain ⟨p, q, hpq⟩ := render_lit Tcp b _ ht s hs
    have hsplit : ("ladybug-comfort map tcp condition.csv enclosure_info.json --schedule schedule.txt --occ-schedule-json occ_schedule.json --folder output" : String) =
        "ladybug-comfort map tcp condition.csv enclosure_info.json " ++
        "--schedule schedule.txt" ++ " --occ-schedule-json occ_schedule.json --folder output" := by rfl
    rw [hsplit] at hpq
    exact ⟨p ++ "ladybug-comfort map tcp condition.csv enclosure_info.json ",
      " --occ-schedule-json occ_schedule.json --folder output" ++ q, by rw [hpq, append_five]⟩

/-- Closed instance of C10: the shortwave MRT command rendered without
the optional contributions folder, and the TCP command rendered without
the optional schedule file, both carry their optional input's token. -/
theorem claim_c10_witness :
    (∃ p q, shortwaveCmd = p ++ "--contributions dynamic" ++ q) ∧
    (∃ p q, tcpCmd = p ++ "--schedule schedule.txt" ++ q) :=
  ⟨claim_c10_optional_flags_unconditional.1 shortwaveB shortwaveCmd (by rfl),
   claim_c10_optional_flags_unconditional.2 tcpB tcpCmd (by rfl)⟩

end LadybugComfort
